import Mathlib

/-!
Shallow embedding of the DragonTigerBot betting logic and round loop.

Sources embedded here:
  - betting_logic.py : BettingStrategy and its subclasses (Martingale,
    Fibonacci, DAlembert, Paroli).
  - main.py (BotWorker.run) and web_app.py (bot_logic_thread_func) : the
    per-round control flow around the strategy (bankroll guard, bet
    placement, outcome classification, strategy update), which is the
    same in both files.
  - web_app.py (update_status) and main.py (DragonTigerUI.update_status_display) :
    the status publish/read path.

Monetary quantities (base bet amount, stake, balance) are Python floats in
the source; every operation performed on them there is multiplication by a
natural number and order comparison, so they are modelled as naturals.
-/

/-- Outcome fed to a strategy: the strings win / loss / tie of the source. -/
inductive Outcome
  | win
  | loss
  | tie
deriving DecidableEq, Repr

/-- A bettable side: the strings dragon / tiger of the source. -/
inductive Side
  | dragon
  | tiger
deriving DecidableEq, Repr

/-- Raw round result read from the site by get_bet_outcome:
dragon, tiger or tie (a failed read is modelled as Option.none). -/
inductive RawOutcome
  | dragon
  | tiger
  | tie
deriving DecidableEq, Repr

/-- The raw-result string corresponding to a bettable side, used for the
comparison actual_result == bet_decision in the round loop. -/
def Side.raw : Side → RawOutcome
  | Side.dragon => RawOutcome.dragon
  | Side.tiger => RawOutcome.tiger

/-- The preferred_side attribute: dragon, tiger or auto. The constructor of
BettingStrategy lower-cases and validates the string, defaulting to auto;
this type carries only the three valid results of that normalisation. -/
inductive PreferredSide
  | dragon
  | tiger
  | auto
deriving DecidableEq, Repr

/-- Mutable state of the base class BettingStrategy (betting_logic.py,
BettingStrategy.__init__): history list, consecutive loss/win counters and
the preferred side. max_history_length is the constant 50 below. -/
structure BaseState where
  history : List Outcome
  consecutive_losses : ℕ
  consecutive_wins : ℕ
  preferred_side : PreferredSide
deriving DecidableEq, Repr

/-- self.max_history_length = 50 in BettingStrategy.__init__. -/
def max_history_length : ℕ := 50

/-- BettingStrategy.__init__: empty history, both counters zero. -/
def BettingStrategy.init (ps : PreferredSide) : BaseState :=
  { history := [], consecutive_losses := 0, consecutive_wins := 0,
    preferred_side := ps }

/-- history.append(result) followed by pop(0) when the length bound is
exceeded (end of BettingStrategy.update_history). -/
def appendHistory (h : List Outcome) (result : Outcome) : List Outcome :=
  let h2 := h ++ [result]
  if max_history_length < h2.length then h2.tail else h2

/-- BettingStrategy.update_history: a loss increments consecutive_losses
and zeroes consecutive_wins; a win zeroes consecutive_losses and increments
consecutive_wins; a tie changes neither; then the outcome is appended to
the bounded history. -/
def BettingStrategy.update_history (s : BaseState) (result : Outcome) : BaseState :=
  let s2 :=
    match result with
    | Outcome.loss =>
        { s with consecutive_losses := s.consecutive_losses + 1,
                 consecutive_wins := 0 }
    | Outcome.win =>
        { s with consecutive_losses := 0,
                 consecutive_wins := s.consecutive_wins + 1 }
    | Outcome.tie => s
  { s2 with history := appendHistory s2.history result }

/-- BettingStrategy.should_continue: consecutive_losses < max_losses. -/
def BettingStrategy.should_continue (s : BaseState) (max_losses : ℕ) : Bool :=
  s.consecutive_losses < max_losses

/-- BettingStrategy.analyze: the preferred side when fixed, otherwise the
default dragon (game_state is not consulted by the base class). -/
def BettingStrategy.analyze (s : BaseState) : Side :=
  match s.preferred_side with
  | PreferredSide.dragon => Side.dragon
  | PreferredSide.tiger => Side.tiger
  | PreferredSide.auto => Side.dragon

/-- BettingStrategy.get_bet_amount: always the base amount. -/
def BettingStrategy.get_bet_amount (_s : BaseState) (base_amount : ℕ) : ℕ :=
  base_amount

/-- MartingaleStrategy.get_bet_amount: base_amount when consecutive_losses
is 0, otherwise base_amount * 2 ^ min(consecutive_losses, 8); the Martingale
subclass adds no state of its own. -/
def MartingaleStrategy.get_bet_amount (s : BaseState) (base_amount : ℕ) : ℕ :=
  if s.consecutive_losses = 0 then base_amount
  else base_amount * 2 ^ (min s.consecutive_losses 8)

/-- Mutable state of FibonacciStrategy: the base state plus fib_sequence
(seeded [1, 1]) and current_fib_index (seeded 0). -/
structure FibState where
  base : BaseState
  fib_sequence : List ℕ
  current_fib_index : ℕ
deriving DecidableEq, Repr

/-- FibonacciStrategy.__init__. -/
def FibonacciStrategy.init (ps : PreferredSide) : FibState :=
  { base := BettingStrategy.init ps, fib_sequence := [1, 1],
    current_fib_index := 0 }

/-- FibonacciStrategy.update_history: delegate to the base class, then
reset the index on a win, advance it on a loss but only while it is below
len(fib_sequence) - 1 (hold at the last generated value), and leave it
unchanged on a tie. -/
def FibonacciStrategy.update_history (s : FibState) (outcome : Outcome) : FibState :=
  let b := BettingStrategy.update_history s.base outcome
  match outcome with
  | Outcome.win => { s with base := b, current_fib_index := 0 }
  | Outcome.loss =>
      if s.current_fib_index < s.fib_sequence.length - 1 then
        { s with base := b, current_fib_index := s.current_fib_index + 1 }
      else { s with base := b }
  | Outcome.tie => { s with base := b }

/-- fib_sequence[-1] + fib_sequence[-2]: the next entry appended by the
generation loop in FibonacciStrategy.get_bet_amount. -/
def nextFibEntry (seq : List ℕ) : ℕ :=
  seq.getLast?.getD 0 + seq.dropLast.getLast?.getD 0

/-- n iterations of the append step of the generation loop. -/
def growFib (seq : List ℕ) : ℕ → List ℕ
  | 0 => seq
  | n + 1 => growFib (seq ++ [nextFibEntry seq]) n

/-- The while-loop "while current_fib_index >= len(fib_sequence): append"
of FibonacciStrategy.get_bet_amount. Each iteration lengthens the list by
one, so the loop body runs exactly idx + 1 - len(seq) times (zero when the
index is already inside the list). -/
def FibonacciStrategy.extendTo (seq : List ℕ) (idx : ℕ) : List ℕ :=
  growFib seq (idx + 1 - seq.length)

/-- FibonacciStrategy.get_bet_amount. The Python method mutates
self.fib_sequence via the generation loop, so the embedding returns the
amount together with the post-call state. When consecutive_losses is 0 the
method returns base_amount before reaching the loop. Otherwise the sequence
is extended on demand, the index is clamped to the last entry, and the bet
is fib_sequence[idx] * base_amount. -/
def FibonacciStrategy.get_bet_amount (s : FibState) (base_amount : ℕ) : ℕ × FibState :=
  if s.base.consecutive_losses = 0 then (base_amount, s)
  else
    let seq := FibonacciStrategy.extendTo s.fib_sequence s.current_fib_index
    let idx := min s.current_fib_index (seq.length - 1)
    (seq.getD idx 0 * base_amount, { s with fib_sequence := seq })

/-- FibonacciStrategy.analyze: the preferred side when fixed; in auto mode
alternate by the parity of the history length. -/
def FibonacciStrategy.analyze (s : FibState) : Side :=
  match s.base.preferred_side with
  | PreferredSide.dragon => Side.dragon
  | PreferredSide.tiger => Side.tiger
  | PreferredSide.auto =>
      if s.base.history.length % 2 = 0 then Side.dragon else Side.tiger

/-- Mutable state of DAlembertStrategy: the base state plus
current_bet_unit_multiplier (seeded 1). -/
structure DAlembertState where
  base : BaseState
  current_bet_unit_multiplier : ℕ
deriving DecidableEq, Repr

/-- DAlembertStrategy.__init__. -/
def DAlembertStrategy.init (ps : PreferredSide) : DAlembertState :=
  { base := BettingStrategy.init ps, current_bet_unit_multiplier := 1 }

/-- DAlembertStrategy.get_bet_amount: multiplier times the base amount. -/
def DAlembertStrategy.get_bet_amount (s : DAlembertState) (base_amount : ℕ) : ℕ :=
  s.current_bet_unit_multiplier * base_amount

/-- DAlembertStrategy.update_history: delegate to the base class, then
decrease the multiplier by one (floored at 1) on a win, increase it by one
on a loss, and leave it unchanged on a tie. -/
def DAlembertStrategy.update_history (s : DAlembertState) (result : Outcome) : DAlembertState :=
  let b := BettingStrategy.update_history s.base result
  match result with
  | Outcome.win =>
      { s with base := b,
               current_bet_unit_multiplier := max 1 (s.current_bet_unit_multiplier - 1) }
  | Outcome.loss =>
      { s with base := b,
               current_bet_unit_multiplier := s.current_bet_unit_multiplier + 1 }
  | Outcome.tie => { s with base := b }

/-- DAlembertStrategy.analyze: the preferred side when fixed, otherwise the
base-class default. -/
def DAlembertStrategy.analyze (s : DAlembertState) : Side :=
  match s.base.preferred_side with
  | PreferredSide.dragon => Side.dragon
  | PreferredSide.tiger => Side.tiger
  | PreferredSide.auto => BettingStrategy.analyze s.base

/-- Mutable state of ParoliStrategy: the base state plus wins_to_reset. -/
structure ParoliState where
  base : BaseState
  wins_to_reset : ℕ
deriving DecidableEq, Repr

/-- The default wins_to_reset=3 of ParoliStrategy.__init__. -/
def ParoliStrategy.default_wins_to_reset : ℕ := 3

/-- ParoliStrategy.__init__. -/
def ParoliStrategy.init (ps : PreferredSide) (wins_to_reset : ℕ) : ParoliState :=
  { base := BettingStrategy.init ps, wins_to_reset := wins_to_reset }

/-- ParoliStrategy.update_history: the base-class update only. -/
def ParoliStrategy.update_history (s : ParoliState) (outcome : Outcome) : ParoliState :=
  { s with base := BettingStrategy.update_history s.base outcome }

/-- ParoliStrategy.get_bet_amount: base_amount when consecutive_wins is 0
or has reached wins_to_reset, otherwise base_amount * 2 ^ consecutive_wins. -/
def ParoliStrategy.get_bet_amount (s : ParoliState) (base_amount : ℕ) : ℕ :=
  if s.base.consecutive_wins = 0 ∨ s.wins_to_reset ≤ s.base.consecutive_wins then
    base_amount
  else base_amount * 2 ^ s.base.consecutive_wins

/-- ParoliStrategy.should_continue: delegates to the base-class check. -/
def ParoliStrategy.should_continue (s : ParoliState) (max_losses : ℕ) : Bool :=
  BettingStrategy.should_continue s.base max_losses

/-- Feed a list of outcomes to a strategy update function, left to right. -/
def consume_outcomes {σ : Type} (upd : σ → Outcome → σ) (s : σ) (outs : List Outcome) : σ :=
  outs.foldl upd s

/-- The outcome classification shared by BotWorker.run (main.py) and
bot_logic_thread_func (web_app.py): default loss; a None read stays loss;
a raw tie becomes tie; a raw result equal to the side bet becomes win;
the other side stays loss. -/
def classify_outcome (bet_decision : Side) (actual_result : Option RawOutcome) : Outcome :=
  match actual_result with
  | none => Outcome.loss
  | some RawOutcome.tie => Outcome.tie
  | some r => if r = bet_decision.raw then Outcome.win else Outcome.loss

/-- The dynamically dispatched strategy interface used by the round loop:
analyze, get_bet_amount (which may mutate the strategy, as Fibonacci does)
and update_history. -/
structure Strategy (σ : Type) where
  analyze : σ → Side
  get_bet_amount : σ → ℕ → ℕ × σ
  update_history : σ → Outcome → σ

/-- The base BettingStrategy as a round-loop strategy. -/
def baseStrategy : Strategy BaseState :=
  { analyze := BettingStrategy.analyze,
    get_bet_amount := fun s b => (BettingStrategy.get_bet_amount s b, s),
    update_history := BettingStrategy.update_history }

/-- MartingaleStrategy as a round-loop strategy (analyze, update_history
and state are inherited from the base class). -/
def martingaleStrategy : Strategy BaseState :=
  { analyze := BettingStrategy.analyze,
    get_bet_amount := fun s b => (MartingaleStrategy.get_bet_amount s b, s),
    update_history := BettingStrategy.update_history }

/-- FibonacciStrategy as a round-loop strategy. -/
def fibonacciStrategy : Strategy FibState :=
  { analyze := FibonacciStrategy.analyze,
    get_bet_amount := FibonacciStrategy.get_bet_amount,
    update_history := FibonacciStrategy.update_history }

/-- DAlembertStrategy as a round-loop strategy. -/
def dAlembertStrategy : Strategy DAlembertState :=
  { analyze := DAlembertStrategy.analyze,
    get_bet_amount := fun s b => (DAlembertStrategy.get_bet_amount s b, s),
    update_history := DAlembertStrategy.update_history }

/-- ParoliStrategy as a round-loop strategy (analyze inherited). -/
def paroliStrategy : Strategy ParoliState :=
  { analyze := fun s => BettingStrategy.analyze s.base,
    get_bet_amount := fun s b => (ParoliStrategy.get_bet_amount s b, s),
    update_history := ParoliStrategy.update_history }

/-- External inputs consumed by one iteration of the round loop:
the balance known to the loop (None when get_player_balance failed), the
raw outcome from get_bet_outcome, and the Boolean from place_bet. -/
structure RoundInput where
  current_balance : Option ℕ
  actual_result : Option RawOutcome
  bet_successful : Bool
deriving DecidableEq, Repr

/-- Observable effect of one iteration of the round loop: the strategy
state afterwards, the bet handed to place_bet (side and stake) if any, and
the outcome handed to update_history if any. -/
structure RoundResult (σ : Type) where
  state : σ
  placed_bet : Option (Side × ℕ)
  consumed : Option Outcome
deriving DecidableEq, Repr

/-- One iteration of the betting round, as written identically in
BotWorker.run (main.py lines 88-158) and bot_logic_thread_func (web_app.py
lines 268-340): analyze picks a side (always truthy), get_bet_amount
computes the stake (possibly mutating the strategy), then the bankroll
guard: when the known balance is a number and the stake exceeds it the bet
is skipped and the strategy is not updated. Otherwise place_bet is called;
only when it reports success is the raw outcome read, classified and fed
to update_history; a failed placement updates nothing. -/
def run_round {σ : Type} (st : Strategy σ) (s : σ) (base_amount : ℕ)
    (inp : RoundInput) : RoundResult σ :=
  let bet_decision := st.analyze s
  let gb := st.get_bet_amount s base_amount
  let current_bet_amount := gb.1
  let s1 := gb.2
  let skip : Bool :=
    match inp.current_balance with
    | some b => decide (b < current_bet_amount)
    | none => false
  if skip then
    { state := s1, placed_bet := none, consumed := none }
  else if inp.bet_successful then
    let outcome := classify_outcome bet_decision inp.actual_result
    { state := st.update_history s1 outcome,
      placed_bet := some (bet_decision, current_bet_amount),
      consumed := some outcome }
  else
    { state := s1, placed_bet := some (bet_decision, current_bet_amount),
      consumed := none }

/-- The status record bot_state["status"] of web_app.py (and the five
status labels of the Qt UI): current_action, last_result,
consecutive_losses, current_bet_amount, player_balance. -/
structure Status where
  current_action : String
  last_result : String
  consecutive_losses : ℕ
  current_bet_amount : ℕ
  player_balance : String
deriving DecidableEq, Repr

/-- The initial status value of bot_state in web_app.py. -/
def init_status : Status :=
  { current_action := "Idle", last_result := "N/A", consecutive_losses := 0,
    current_bet_amount := 0, player_balance := "N/A" }

/-- A published status update: the dict passed to update_status /
status_update_signal. Every publish site passes a dict with a subset of
the five keys, so each field is optional. -/
structure StatusUpdate where
  current_action : Option String
  last_result : Option String
  consecutive_losses : Option ℕ
  current_bet_amount : Option ℕ
  player_balance : Option String
deriving DecidableEq, Repr

/-- update_status of web_app.py: bot_state["status"].update(d), a Python
dict update — keys present in the published dict overwrite the stored
value, keys absent keep their previous value. -/
def update_status (s : Status) (u : StatusUpdate) : Status :=
  { current_action := u.current_action.getD s.current_action,
    last_result := u.last_result.getD s.last_result,
    consecutive_losses := u.consecutive_losses.getD s.consecutive_losses,
    current_bet_amount := u.current_bet_amount.getD s.current_bet_amount,
    player_balance := u.player_balance.getD s.player_balance }

/-- The five label texts maintained by DragonTigerUI.update_status_display
in main.py. -/
structure StatusLabels where
  action_label : String
  result_label : String
  losses_label : String
  bet_label : String
  balance_label : String
deriving DecidableEq, Repr

/-- DragonTigerUI.update_status_display of main.py: each label text is
rewritten only when its key is present in the received dict; labels whose
key is absent keep their previous text. -/
def update_status_display (l : StatusLabels) (u : StatusUpdate) : StatusLabels :=
  { action_label :=
      match u.current_action with
      | some a => "Current Action: " ++ a
      | none => l.action_label,
    result_label :=
      match u.last_result with
      | some r => "Last Result: " ++ r
      | none => l.result_label,
    losses_label :=
      match u.consecutive_losses with
      | some n => "Consecutive Losses: " ++ toString n
      | none => l.losses_label,
    bet_label :=
      match u.current_bet_amount with
      | some n => "Current Bet: " ++ toString n
      | none => l.bet_label,
    balance_label :=
      match u.player_balance with
      | some b => "Balance: " ++ b
      | none => l.balance_label }

/-! ### Claim theorems -/

/-- C5: the Settling classification maps a raw tie to Outcome.tie, a raw
result equal to the side bet to Outcome.win, the other bettable side to
Outcome.loss, and the unknown sentinel (None) to Outcome.loss; feeding the
unknown resolution to the strategy update increments consecutive_losses by
exactly 1. -/
theorem classify_outcome_spec (bet : Side) (s : BaseState) :
    classify_outcome bet (some RawOutcome.tie) = Outcome.tie
    ∧ classify_outcome bet (some bet.raw) = Outcome.win
    ∧ (∀ r : RawOutcome, r ≠ bet.raw → r ≠ RawOutcome.tie →
        classify_outcome bet (some r) = Outcome.loss)
    ∧ classify_outcome bet none = Outcome.loss
    ∧ (BettingStrategy.update_history s (classify_outcome bet none)).consecutive_losses
        = s.consecutive_losses + 1 := by
  refine ⟨?_, ?_, ?_, rfl, ?_⟩
  · cases bet <;> rfl
  · cases bet <;> rfl
  · intro r h1 h2
    cases bet <;> cases r <;> simp_all [classify_outcome, Side.raw]
  · simp [classify_outcome, BettingStrategy.update_history]

/-- C5 witness: betting dragon, a raw tiger result is classified as a
loss. -/
theorem classify_outcome_spec_witness :
    classify_outcome Side.dragon (some RawOutcome.tiger) = Outcome.loss :=
  (classify_outcome_spec Side.dragon
    (BettingStrategy.init PreferredSide.auto)).2.2.1 RawOutcome.tiger
    (by decide) (by decide)

/-- C6: the Martingale stake is the base amount when consecutive_losses is
zero and base * 2 ^ min(consecutive_losses, 8) when it is positive; a win
after any loss streak resets the next stake to the base amount, and a tie
leaves the next stake unchanged. -/
theorem martingale_stake_spec (s : BaseState) (base_amount : ℕ) :
    (s.consecutive_losses = 0 →
      MartingaleStrategy.get_bet_amount s base_amount = base_amount)
    ∧ (0 < s.consecutive_losses →
      MartingaleStrategy.get_bet_amount s base_amount
        = base_amount * 2 ^ (min s.consecutive_losses 8))
    ∧ MartingaleStrategy.get_bet_amount
        (BettingStrategy.update_history s Outcome.win) base_amount = base_amount
    ∧ MartingaleStrategy.get_bet_amount
        (BettingStrategy.update_history s Outcome.tie) base_amount
        = MartingaleStrategy.get_bet_amount s base_amount := by
  refine ⟨fun h => by simp [MartingaleStrategy.get_bet_amount, h], fun h => ?_, ?_, ?_⟩
  · simp [MartingaleStrategy.get_bet_amount, Nat.pos_iff_ne_zero.mp h]
  · simp [MartingaleStrategy.get_bet_amount, BettingStrategy.update_history]
  · simp [MartingaleStrategy.get_bet_amount, BettingStrategy.update_history]

/-- C6 witness: at the fresh state the Martingale stake is the base
amount, and after one loss it is base * 2 ^ min(1, 8). -/
theorem martingale_stake_spec_witness :
    MartingaleStrategy.get_bet_amount (BettingStrategy.init PreferredSide.auto) 10 = 10
    ∧ MartingaleStrategy.get_bet_amount
        (BettingStrategy.update_history (BettingStrategy.init PreferredSide.auto)
          Outcome.loss) 10 = 20 :=
  ⟨(martingale_stake_spec (BettingStrategy.init PreferredSide.auto) 10).1 rfl,
   (martingale_stake_spec
      (BettingStrategy.update_history (BettingStrategy.init PreferredSide.auto)
        Outcome.loss) 10).2.1 (by decide)⟩

/-- C7: for every strategy variant and every state, consuming a tie leaves
consecutive_losses, consecutive_wins and every strategy-private counter
(the Fibonacci index cursor and the DAlembert unit multiplier) unchanged. -/
theorem tie_preserves_counters :
    (∀ s : BaseState,
      (BettingStrategy.update_history s Outcome.tie).consecutive_losses
          = s.consecutive_losses
      ∧ (BettingStrategy.update_history s Outcome.tie).consecutive_wins
          = s.consecutive_wins)
    ∧ (∀ s : FibState,
      (FibonacciStrategy.update_history s Outcome.tie).base.consecutive_losses
          = s.base.consecutive_losses
      ∧ (FibonacciStrategy.update_history s Outcome.tie).base.consecutive_wins
          = s.base.consecutive_wins
      ∧ (FibonacciStrategy.update_history s Outcome.tie).current_fib_index
          = s.current_fib_index)
    ∧ (∀ s : DAlembertState,
      (DAlembertStrategy.update_history s Outcome.tie).base.consecutive_losses
          = s.base.consecutive_losses
      ∧ (DAlembertStrategy.update_history s Outcome.tie).base.consecutive_wins
          = s.base.consecutive_wins
      ∧ (DAlembertStrategy.update_history s Outcome.tie).current_bet_unit_multiplier
          = s.current_bet_unit_multiplier)
    ∧ (∀ s : ParoliState,
      (ParoliStrategy.update_history s Outcome.tie).base.consecutive_losses
          = s.base.consecutive_losses
      ∧ (ParoliStrategy.update_history s Outcome.tie).base.consecutive_wins
          = s.base.consecutive_wins) := by
  refine ⟨fun s => ⟨rfl, rfl⟩, fun s => ⟨rfl, rfl, rfl⟩,
    fun s => ⟨rfl, rfl, rfl⟩, fun s => ⟨rfl, rfl⟩⟩

/-- C9: for the base strategy (used by Martingale, Fibonacci and
DAlembert) and for the Paroli override, should_continue is false exactly
when consecutive_losses has reached max_losses, and Paroli delegates to
the base rule. -/
theorem should_continue_spec (s : BaseState) (p : ParoliState) (m : ℕ) :
    (BettingStrategy.should_continue s m = false ↔ m ≤ s.consecutive_losses)
    ∧ (BettingStrategy.should_continue s m = true ↔ s.consecutive_losses < m)
    ∧ (ParoliStrategy.should_continue p m = false ↔ m ≤ p.base.consecutive_losses)
    ∧ ParoliStrategy.should_continue p m = BettingStrategy.should_continue p.base m := by
  refine ⟨?_, ?_, ?_, rfl⟩ <;>
    simp [BettingStrategy.should_continue, ParoliStrategy.should_continue, Nat.not_lt]

/-- C10: the Paroli stake is the base amount when consecutive_wins is zero
or has reached wins_to_reset, and base * 2 ^ consecutive_wins otherwise;
with the default target 3, two consecutive wins from a fresh state make
the next stake 4 * base, the third consecutive win resets the following
stake to base, and any loss resets the next stake to base. -/
theorem paroli_stake_spec (s : ParoliState) (ps : PreferredSide) (base_amount : ℕ) :
    (s.base.consecutive_wins = 0 ∨ s.wins_to_reset ≤ s.base.consecutive_wins →
      ParoliStrategy.get_bet_amount s base_amount = base_amount)
    ∧ (0 < s.base.consecutive_wins → s.base.consecutive_wins < s.wins_to_reset →
      ParoliStrategy.get_bet_amount s base_amount
        = base_amount * 2 ^ s.base.consecutive_wins)
    ∧ ParoliStrategy.default_wins_to_reset = 3
    ∧ (ParoliStrategy.get_bet_amount
        (consume_outcomes ParoliStrategy.update_history (ParoliStrategy.init ps 3)
          [Outcome.win, Outcome.win]) base_amount = 4 * base_amount)
    ∧ (ParoliStrategy.get_bet_amount
        (consume_outcomes ParoliStrategy.update_history (ParoliStrategy.init ps 3)
          [Outcome.win, Outcome.win, Outcome.win]) base_amount = base_amount)
    ∧ ParoliStrategy.get_bet_amount (ParoliStrategy.update_history s Outcome.loss)
        base_amount = base_amount := by
  refine ⟨fun h => by simp [ParoliStrategy.get_bet_amount, h], fun h1 h2 => ?_,
    rfl, ?_, ?_, ?_⟩
  · simp [ParoliStrategy.get_bet_amount, Nat.pos_iff_ne_zero.mp h1, Nat.not_le.mpr h2]
  · simp [consume_outcomes, ParoliStrategy.get_bet_amount,
      ParoliStrategy.update_history, ParoliStrategy.init, BettingStrategy.init,
      BettingStrategy.update_history, appendHistory]
    ring
  · simp [consume_outcomes, ParoliStrategy.get_bet_amount,
      ParoliStrategy.update_history, ParoliStrategy.init, BettingStrategy.init,
      BettingStrategy.update_history, appendHistory]
  · simp [ParoliStrategy.get_bet_amount, ParoliStrategy.update_history,
      BettingStrategy.update_history]

/-- C10 witness: stake at a fresh Paroli state is the base amount, and at
one consecutive win (target 3) the stake is base * 2. -/
theorem paroli_stake_spec_witness :
    ParoliStrategy.get_bet_amount (ParoliStrategy.init PreferredSide.auto 3) 10 = 10
    ∧ ParoliStrategy.get_bet_amount
        (ParoliStrategy.update_history (ParoliStrategy.init PreferredSide.auto 3)
          Outcome.win) 10 = 20 :=
  ⟨(paroli_stake_spec (ParoliStrategy.init PreferredSide.auto 3)
      PreferredSide.auto 10).1 (Or.inl rfl),
   (paroli_stake_spec
      (ParoliStrategy.update_history (ParoliStrategy.init PreferredSide.auto 3)
        Outcome.win) PreferredSide.auto 10).2.1 (by decide) (by decide)⟩

/-- The Fibonacci state after n consecutive losses from a fresh strategy. -/
def fib_after_losses (ps : PreferredSide) (n : ℕ) : FibState :=
  consume_outcomes FibonacciStrategy.update_history (FibonacciStrategy.init ps)
    (List.replicate n Outcome.loss)

/-- C1 counterexample: after 5 consecutive losses from a fresh Fibonacci
strategy the index cursor is not 4 and the stake at base 10 is not 50. -/
theorem fib_five_losses_counterexample :
    (fib_after_losses PreferredSide.auto 5).current_fib_index ≠ 4
    ∧ (FibonacciStrategy.get_bet_amount (fib_after_losses PreferredSide.auto 5) 10).1 ≠ 50 := by
  decide

/-- Helper: the explicit Fibonacci state after 5 losses from a fresh
strategy. -/
theorem fib_after_losses_five_eq (ps : PreferredSide) :
    fib_after_losses ps 5 =
      { base := { history := List.replicate 5 Outcome.loss, consecutive_losses := 5,
                  consecutive_wins := 0, preferred_side := ps },
        fib_sequence := [1, 1], current_fib_index := 1 } := by
  simp [fib_after_losses, consume_outcomes, FibonacciStrategy.init, BettingStrategy.init,
    FibonacciStrategy.update_history, BettingStrategy.update_history, appendHistory,
    max_history_length, List.replicate]

/-- C1 amended: after 5 consecutive losses from a fresh Fibonacci
strategy the index cursor holds at 1 (the cursor caps at sequence length
minus one, and the two-entry seed [1, 1] is never extended because the
generation loop only runs when the cursor has passed the end of the
sequence), the stake is 1 * base, and the cursor stays strictly inside the
generated entries. -/
theorem fib_five_losses_cursor_holds (ps : PreferredSide) (base_amount : ℕ) :
    (fib_after_losses ps 5).current_fib_index = 1
    ∧ (fib_after_losses ps 5).fib_sequence = [1, 1]
    ∧ (FibonacciStrategy.get_bet_amount (fib_after_losses ps 5) base_amount).1
        = 1 * base_amount
    ∧ (fib_after_losses ps 5).current_fib_index
        < (fib_after_losses ps 5).fib_sequence.length := by
  rw [fib_after_losses_five_eq]
  refine ⟨rfl, rfl, ?_, by simp⟩
  simp [FibonacciStrategy.get_bet_amount, FibonacciStrategy.extendTo, growFib]

/-- C2 counterexample: a publish carrying only current_action does not
replace the snapshot as a whole — the stored snapshot after the publish
still depends on the previous snapshot (last_result, consecutive_losses
and current_bet_amount keep their old values). -/
theorem update_status_merge_counterexample :
    update_status init_status
      { current_action := some "Analyzing game state...", last_result := none,
        consecutive_losses := none, current_bet_amount := none, player_balance := none }
    ≠ update_status
      { current_action := "Idle", last_result := "tie", consecutive_losses := 3,
        current_bet_amount := 8, player_balance := "N/A" }
      { current_action := some "Analyzing game state...", last_result := none,
        consecutive_losses := none, current_bet_amount := none, player_balance := none } := by
  decide

/-- C2 amended: a status publish is merged field by field into the stored
snapshot — a field named in the published dict takes the published value,
a field absent from it keeps its previous value — and the Qt reader
likewise rewrites only the labels whose keys are present; the snapshot is
replaced independently of its previous value exactly when the publish
carries all five fields. -/
theorem update_status_merge_semantics (s : Status) (l : StatusLabels) (u : StatusUpdate) :
    ((∀ v, u.current_action = some v → (update_status s u).current_action = v)
      ∧ (u.current_action = none → (update_status s u).current_action = s.current_action))
    ∧ ((∀ v, u.last_result = some v → (update_status s u).last_result = v)
      ∧ (u.last_result = none → (update_status s u).last_result = s.last_result))
    ∧ ((∀ v, u.consecutive_losses = some v → (update_status s u).consecutive_losses = v)
      ∧ (u.consecutive_losses = none →
          (update_status s u).consecutive_losses = s.consecutive_losses))
    ∧ ((∀ v, u.current_bet_amount = some v → (update_status s u).current_bet_amount = v)
      ∧ (u.current_bet_amount = none →
          (update_status s u).current_bet_amount = s.current_bet_amount))
    ∧ ((∀ v, u.player_balance = some v → (update_status s u).player_balance = v)
      ∧ (u.player_balance = none → (update_status s u).player_balance = s.player_balance))
    ∧ ((u.last_result = none → (update_status_display l u).result_label = l.result_label)
      ∧ (∀ v, u.last_result = some v →
          (update_status_display l u).result_label = "Last Result: " ++ v))
    ∧ ((∀ s1 s2 : Status, update_status s1 u = update_status s2 u)
        ↔ u.current_action.isSome ∧ u.last_result.isSome ∧ u.consecutive_losses.isSome
          ∧ u.current_bet_amount.isSome ∧ u.player_balance.isSome) := by
  refine ⟨⟨fun v h => by simp [update_status, h], fun h => by simp [update_status, h]⟩,
    ⟨fun v h => by simp [update_status, h], fun h => by simp [update_status, h]⟩,
    ⟨fun v h => by simp [update_status, h], fun h => by simp [update_status, h]⟩,
    ⟨fun v h => by simp [update_status, h], fun h => by simp [update_status, h]⟩,
    ⟨fun v h => by simp [update_status, h], fun h => by simp [update_status, h]⟩,
    ⟨fun h => by simp [update_status_display, h],
      fun v h => by simp [update_status_display, h]⟩, ?_, ?_⟩
  · intro h
    refine ⟨?_, ?_, ?_, ?_, ?_⟩ <;> rw [← Option.ne_none_iff_isSome] <;> intro hn
    · have h2 := congrArg Status.current_action
        (h { current_action := "a", last_result := "b", consecutive_losses := 0,
             current_bet_amount := 0, player_balance := "c" }
           { current_action := "d", last_result := "e", consecutive_losses := 1,
             current_bet_amount := 2, player_balance := "f" })
      simp [update_status, hn] at h2
    · have h2 := congrArg Status.last_result
        (h { current_action := "a", last_result := "b", consecutive_losses := 0,
             current_bet_amount := 0, player_balance := "c" }
           { current_action := "d", last_result := "e", consecutive_losses := 1,
             current_bet_amount := 2, player_balance := "f" })
      simp [update_status, hn] at h2
    · have h2 := congrArg Status.consecutive_losses
        (h { current_action := "a", last_result := "b", consecutive_losses := 0,
             current_bet_amount := 0, player_balance := "c" }
           { current_action := "d", last_result := "e", consecutive_losses := 1,
             current_bet_amount := 2, player_balance := "f" })
      simp [update_status, hn] at h2
    · have h2 := congrArg Status.current_bet_amount
        (h { current_action := "a", last_result := "b", consecutive_losses := 0,
             current_bet_amount := 0, player_balance := "c" }
           { current_action := "d", last_result := "e", consecutive_losses := 1,
             current_bet_amount := 2, player_balance := "f" })
      simp [update_status, hn] at h2
    · have h2 := congrArg Status.player_balance
        (h { current_action := "a", last_result := "b", consecutive_losses := 0,
             current_bet_amount := 0, player_balance := "c" }
           { current_action := "d", last_result := "e", consecutive_losses := 1,
             current_bet_amount := 2, player_balance := "f" })
      simp [update_status, hn] at h2
  · rintro ⟨h1, h2, h3, h4, h5⟩ s1 s2
    obtain ⟨a, ha⟩ := Option.isSome_iff_exists.mp h1
    obtain ⟨b, hb⟩ := Option.isSome_iff_exists.mp h2
    obtain ⟨c, hc⟩ := Option.isSome_iff_exists.mp h3
    obtain ⟨d, hd⟩ := Option.isSome_iff_exists.mp h4
    obtain ⟨e, he⟩ := Option.isSome_iff_exists.mp h5
    simp [update_status, ha, hb, hc, hd, he]

/-- C2 witness: publishing only current_action over the initial snapshot
sets current_action to the published text and keeps last_result at its
previous value. -/
theorem update_status_merge_semantics_witness :
    (update_status init_status
      { current_action := some "Placing bet", last_result := none,
        consecutive_losses := none, current_bet_amount := none,
        player_balance := none }).current_action = "Placing bet"
    ∧ (update_status init_status
      { current_action := some "Placing bet", last_result := none,
        consecutive_losses := none, current_bet_amount := none,
        player_balance := none }).last_result = "N/A" :=
  ⟨(update_status_merge_semantics init_status
      { action_label := "", result_label := "", losses_label := "",
        bet_label := "", balance_label := "" }
      { current_action := some "Placing bet", last_result := none,
        consecutive_losses := none, current_bet_amount := none,
        player_balance := none }).1.1 "Placing bet" rfl,
   (update_status_merge_semantics init_status
      { action_label := "", result_label := "", losses_label := "",
        bet_label := "", balance_label := "" }
      { current_action := some "Placing bet", last_result := none,
        consecutive_losses := none, current_bet_amount := none,
        player_balance := none }).2.1.2 rfl⟩

/-- C3: when the loop knows a balance and the computed stake exceeds it,
the round places no bet and consumes no outcome — its result state is
exactly the state left by the stake computation; and for every concrete
strategy the stake computation leaves the progression state unchanged
(Fibonacci may in principle touch only its sequence cache, never the base
counters, history or cursor). -/
theorem bankroll_guard_skips_update :
    (∀ (σ : Type) (st : Strategy σ) (s : σ) (base_amount b : ℕ) (inp : RoundInput),
      inp.current_balance = some b → b < (st.get_bet_amount s base_amount).1 →
      run_round st s base_amount inp
        = { state := (st.get_bet_amount s base_amount).2, placed_bet := none,
            consumed := none })
    ∧ (∀ (s : BaseState) (b : ℕ), (baseStrategy.get_bet_amount s b).2 = s)
    ∧ (∀ (s : BaseState) (b : ℕ), (martingaleStrategy.get_bet_amount s b).2 = s)
    ∧ (∀ (s : DAlembertState) (b : ℕ), (dAlembertStrategy.get_bet_amount s b).2 = s)
    ∧ (∀ (s : ParoliState) (b : ℕ), (paroliStrategy.get_bet_amount s b).2 = s)
    ∧ (∀ (s : FibState) (b : ℕ),
        ((FibonacciStrategy.get_bet_amount s b).2).base = s.base
        ∧ ((FibonacciStrategy.get_bet_amount s b).2).current_fib_index
            = s.current_fib_index
        ∧ ((FibonacciStrategy.get_bet_amount s b).2).base.history.length
            = s.base.history.length) := by
  refine ⟨?_, fun s b => rfl, fun s b => rfl, fun s b => rfl, fun s b => rfl, ?_⟩
  · intro σ st s base_amount b inp h1 h2
    simp [run_round, h1, h2]
  · intro s b
    simp only [FibonacciStrategy.get_bet_amount]
    split <;> simp

/-- C3 witness: a fresh Martingale strategy with stake 10 against balance
5 leaves the round without a bet, without a consumed outcome, and with the
state unchanged. -/
theorem bankroll_guard_skips_update_witness :
    run_round martingaleStrategy (BettingStrategy.init PreferredSide.auto) 10
      { current_balance := some 5, actual_result := none, bet_successful := true }
      = { state := BettingStrategy.init PreferredSide.auto, placed_bet := none,
          consumed := none } :=
  bankroll_guard_skips_update.1 BaseState martingaleStrategy
    (BettingStrategy.init PreferredSide.auto) 10 5
    { current_balance := some 5, actual_result := none, bet_successful := true }
    rfl (by decide)

/-- C4: the round skips its bet exactly when the known balance is a number
smaller than the computed stake; when the balance read failed (None), the
bet is always handed to place_bet, with no balance check at all. -/
theorem bankroll_guard_only_when_balance_known (σ : Type) (st : Strategy σ) (s : σ)
    (base_amount : ℕ) (inp : RoundInput) :
    ((run_round st s base_amount inp).placed_bet = none
      ↔ ∃ b, inp.current_balance = some b ∧ b < (st.get_bet_amount s base_amount).1)
    ∧ (inp.current_balance = none →
      (run_round st s base_amount inp).placed_bet
        = some (st.analyze s, (st.get_bet_amount s base_amount).1)) := by
  obtain ⟨bal, ar, bs⟩ := inp
  constructor
  · cases bal with
    | none => cases bs <;> simp [run_round]
    | some b =>
        by_cases hb : b < (st.get_bet_amount s base_amount).1 <;>
          cases bs <;> simp [run_round, hb]
  · intro h
    simp only at h
    subst h
    cases bs <;> simp [run_round]

/-- C4 witness: with an unknown balance a fresh base strategy bet of 7 on
dragon is handed to place_bet. -/
theorem bankroll_guard_only_when_balance_known_witness :
    (run_round baseStrategy (BettingStrategy.init PreferredSide.auto) 7
      { current_balance := none, actual_result := some RawOutcome.tie,
        bet_successful := true }).placed_bet = some (Side.dragon, 7) :=
  (bankroll_guard_only_when_balance_known BaseState baseStrategy
    (BettingStrategy.init PreferredSide.auto) 7
    { current_balance := none, actual_result := some RawOutcome.tie,
      bet_successful := true }).2 rfl

/-- Helper: one base update preserves the mutual exclusion of the two
counters. -/
theorem update_history_mutex (s : BaseState) (o : Outcome)
    (h : ¬(0 < s.consecutive_losses ∧ 0 < s.consecutive_wins)) :
    ¬(0 < (BettingStrategy.update_history s o).consecutive_losses
      ∧ 0 < (BettingStrategy.update_history s o).consecutive_wins) := by
  cases o <;> simp [BettingStrategy.update_history] <;> omega

/-- Helper: mutual exclusion of the counters is preserved by any outcome
sequence. -/
theorem consume_mutex (outs : List Outcome) :
    ∀ s : BaseState, ¬(0 < s.consecutive_losses ∧ 0 < s.consecutive_wins) →
    ¬(0 < (consume_outcomes BettingStrategy.update_history s outs).consecutive_losses
      ∧ 0 < (consume_outcomes BettingStrategy.update_history s outs).consecutive_wins) := by
  induction outs with
  | nil => exact fun s h => h
  | cons o rest ih => exact fun s h => ih _ (update_history_mutex s o h)

/-- Helper: both counters are zero after an outcome sequence exactly when
they were zero before and the sequence is all ties. -/
theorem consume_bothzero (outs : List Outcome) :
    ∀ s : BaseState,
    ((consume_outcomes BettingStrategy.update_history s outs).consecutive_losses = 0
      ∧ (consume_outcomes BettingStrategy.update_history s outs).consecutive_wins = 0)
    ↔ ((∀ o ∈ outs, o = Outcome.tie)
        ∧ s.consecutive_losses = 0 ∧ s.consecutive_wins = 0) := by
  induction outs with
  | nil => intro s; simp [consume_outcomes]
  | cons o rest ih =>
      intro s
      rw [show consume_outcomes BettingStrategy.update_history s (o :: rest)
            = consume_outcomes BettingStrategy.update_history
                (BettingStrategy.update_history s o) rest from rfl, ih]
      cases o <;> simp [BettingStrategy.update_history] <;> tauto

/-- C8: from a fresh strategy, after any consumed outcome sequence at most
one of consecutive_losses and consecutive_wins is nonzero, and both are
zero exactly when every consumed outcome was a tie (so only at
initialization or after ties from an already-reset state); every subclass
delegates the counters to the base update, so this holds for every
strategy variant. -/
theorem counters_mutually_exclusive (ps : PreferredSide) (outs : List Outcome) :
    ¬(0 < (consume_outcomes BettingStrategy.update_history
            (BettingStrategy.init ps) outs).consecutive_losses
      ∧ 0 < (consume_outcomes BettingStrategy.update_history
            (BettingStrategy.init ps) outs).consecutive_wins)
    ∧ (((consume_outcomes BettingStrategy.update_history
            (BettingStrategy.init ps) outs).consecutive_losses = 0
        ∧ (consume_outcomes BettingStrategy.update_history
            (BettingStrategy.init ps) outs).consecutive_wins = 0)
        ↔ ∀ o ∈ outs, o = Outcome.tie)
    ∧ (∀ (s : FibState) (o : Outcome),
        (FibonacciStrategy.update_history s o).base
          = BettingStrategy.update_history s.base o)
    ∧ (∀ (s : DAlembertState) (o : Outcome),
        (DAlembertStrategy.update_history s o).base
          = BettingStrategy.update_history s.base o)
    ∧ (∀ (s : ParoliState) (o : Outcome),
        (ParoliStrategy.update_history s o).base
          = BettingStrategy.update_history s.base o) := by
  refine ⟨consume_mutex outs (BettingStrategy.init ps) (by simp [BettingStrategy.init]),
    ?_, ?_, ?_, fun s o => rfl⟩
  · rw [consume_bothzero]
    simp [BettingStrategy.init]
  · intro s o
    cases o <;> simp only [FibonacciStrategy.update_history] <;> first | rfl | (split <;> rfl)
  · intro s o
    cases o <;> rfl
